import Mathlib

/-!
Verification of the conversational-orchestration core of the
`agentic-whatsapp-assistant` repository.

The definitions below are a shallow embedding of the Python sources:

* `src/orchestrator/validators.py` — the normalizer library
  (`normalise_date`, `normalise_iata_or_city`, `normalise_pax`);
* `src/orchestrator/ask_policy.py` — the ask-policy resolver
  (`next_missing`, `travel_question`, `weather_question`, priority lists);
* `src/orchestrator/extractor.py` — the deterministic heuristic slot
  extractor (`_extract_location`, `_extract_date`, `extract_structured`);
* `src/orchestrator/nodes.py` and `src/orchestrator/graph.py` — the
  per-turn state machine (nodes, conditional edges and terminal states);
* `src/safety/rate_limit.py` — the fixed-window rate limiter, with the
  external Redis counter for one key modelled as an atomic counter with a
  remaining time-to-live;
* `src/tools/toolkit.py` — the tool-invocation gateway (`call_tool`).

Python strings are `String`, Python `None` is `Option.none`, raised
exceptions become `Except` error values, and the regular expressions of
the extractor/validator are implemented directly over character lists
(the sources only use them on ASCII text).
-/

/-! ### Character and string utilities -/

/-- Lower-case an ASCII letter, leaving every other character unchanged
(model of Python lower-casing on the ASCII inputs this system handles). -/
def lowerChar (c : Char) : Char :=
  if c.toNat ≥ 65 ∧ c.toNat ≤ 90 then Char.ofNat (c.toNat + 32) else c

/-- Upper-case an ASCII letter, leaving every other character unchanged. -/
def upperChar (c : Char) : Char :=
  if c.toNat ≥ 97 ∧ c.toNat ≤ 122 then Char.ofNat (c.toNat - 32) else c

/-- Python regex word character `\w` on ASCII text: `[A-Za-z0-9_]`. -/
def isWordChar (c : Char) : Bool :=
  c.isAlphanum || c == '_'

/-- The apostrophe character (code point 39). -/
def apostrophe : Char := Char.ofNat 39

/-- Strip characters satisfying `p` from both ends of a character list
(model of Python `str.strip`). -/
def stripChars (p : Char → Bool) (cs : List Char) : List Char :=
  ((cs.dropWhile p).reverse.dropWhile p).reverse

/-- Whitespace-strip of a string (Python `str.strip()` with no argument). -/
def stripWS (s : String) : String :=
  ⟨stripChars Char.isWhitespace s.data⟩

/-- Lower-cased character list of a string (Python `str.lower()`). -/
def lowerList (s : String) : List Char :=
  s.data.map lowerChar

/-- Does `pat` occur at the head of `cs`, comparing case-insensitively?
Returns the remaining characters after the match. -/
def matchCI : List Char → List Char → Option (List Char)
  | [], cs => some cs
  | _ :: _, [] => none
  | p :: ps, c :: cs => if lowerChar c == p then matchCI ps cs else none

/-- Substring containment after lower-casing both sides
(model of Python `needle in text.lower()` for a lower-case needle). -/
def containsSubstr : List Char → List Char → Bool
  | _, [] => false
  | needle, c :: cs =>
    match matchCI needle (c :: cs) with
    | some _ => true
    | none => containsSubstr needle cs

/-- Containment of a lower-case keyword in a string, case-insensitively. -/
def strContains (text keyword : String) : Bool :=
  containsSubstr keyword.data (lowerList text)

/-! ### Calendar dates

`PyDate` models `datetime.date`: a concrete year-month-day triple. -/

structure PyDate where
  year : Nat
  month : Nat
  day : Nat
deriving Repr, DecidableEq

/-- Zero-padded two-digit rendering of a number below 100. -/
def pad2 (n : Nat) : String :=
  if n < 10 then "0" ++ toString n else toString n

/-- Zero-padded four-digit rendering of a year. -/
def pad4 (n : Nat) : String :=
  if n < 10 then "000" ++ toString n
  else if n < 100 then "00" ++ toString n
  else if n < 1000 then "0" ++ toString n
  else toString n

/-- Canonical ISO rendering `YYYY-MM-DD` (Python `date.isoformat()`). -/
def PyDate.iso (d : PyDate) : String :=
  pad4 d.year ++ "-" ++ pad2 d.month ++ "-" ++ pad2 d.day

/-- Number of days in a month, Gregorian calendar (as validated by
Python `datetime.date`). -/
def daysInMonth (y m : Nat) : Nat :=
  if m == 2 then (if (y % 4 == 0 && y % 100 != 0) || y % 400 == 0 then 29 else 28)
  else if m == 4 || m == 6 || m == 9 || m == 11 then 30
  else 31

/-- Value of a decimal digit character, if it is one. -/
def digitVal (c : Char) : Option Nat :=
  if c.isDigit then some (c.toNat - 48) else none

/-- Numeric value of a fixed block of decimal digit characters. -/
def digitsVal : List Char → Option Nat
  | [] => some 0
  | c :: cs =>
    match digitVal c, digitsVal cs with
    | some d, some r => some (d * 10 ^ cs.length + r)
    | _, _ => none

/-- Model of `dateutil.parser.parse` as called by `normalise_date`
(with `dayfirst=False`, `yearfirst=True` and the supplied default).
On the inputs this system produces, the library recognises a strict ISO
`YYYY-MM-DD` literal and validates it as a real calendar date; relative
words such as "today" or "tomorrow" and other non-date text are not
recognised by the library and raise, modelled here as `none`.  Partial
date forms that would consult the `today` default are outside the
modelled input domain, so `today` is unused in this model. -/
def parse_dateutil (s : String) (today : PyDate) : Option PyDate :=
  let _ := today
  match stripChars Char.isWhitespace s.data with
  | [y1, y2, y3, y4, h1, m1, m2, h2, d1, d2] =>
    if h1 == '-' && h2 == '-' then
      match digitsVal [y1, y2, y3, y4], digitsVal [m1, m2], digitsVal [d1, d2] with
      | some y, some m, some d =>
        if 1 ≤ m && m ≤ 12 && 1 ≤ d && d ≤ daysInMonth y m then
          some ⟨y, m, d⟩
        else none
      | _, _, _ => none
    else none
  | _ => none

/-! ### Normalizer library — `src/orchestrator/validators.py` -/

/-- The three relative-wording markers of the `RELATIVE_HINTS` regex
`\b(next|this|coming)\b` (case-insensitive), as lower-case char lists. -/
def hintWords : List (List Char) :=
  [['n', 'e', 'x', 't'], ['t', 'h', 'i', 's'], ['c', 'o', 'm', 'i', 'n', 'g']]

/-- Does the word `w` occur at the head of `t` followed by a word
boundary (end of text or a non-word character)? -/
def wordAt (t w : List Char) : Bool :=
  match matchCI w t with
  | some [] => true
  | some (d :: _) => !isWordChar d
  | none => false

/-- Scan for a word-bounded occurrence of any of `ws`; the flag records
whether the previous character was a word character (so `\b` holds at
the current position exactly when the flag is false). -/
def scanWords (ws : List (List Char)) : Bool → List Char → Bool
  | _, [] => false
  | prevW, c :: cs =>
    (!prevW && ws.any (fun w => wordAt (c :: cs) w)) || scanWords ws (isWordChar c) cs

/-- `RELATIVE_HINTS.search(raw)`: a word-bounded, case-insensitive
occurrence of "next", "this" or "coming". -/
def relativeHintsSearch (s : String) : Bool :=
  scanWords hintWords false s.data

/-- `normalise_date` from `validators.py`.  The Python default argument
`today=None → date.today()` is made explicit: callers pass the ambient
current date. -/
def normalise_date (raw : Option String) (today : PyDate) :
    Option String × Option String :=
  match raw with
  | none => (none, none)
  | some s =>
    if relativeHintsSearch s then (none, some "ambiguous-relative")
    else
      match parse_dateutil s today with
      | some d => (some d.iso, none)
      | none => (none, some "invalid-date")

/-- `normalise_iata_or_city` from `validators.py`: strip, then a
three-letter alphabetic token is upper-cased (the `IATA_RE` pattern
`^[A-Z]{3}$` matched against the upper-cased string), anything else is
passed through stripped. -/
def normalise_iata_or_city (raw : Option String) :
    Option String × Option String :=
  match raw with
  | none => (none, none)
  | some s =>
    let t := stripChars Char.isWhitespace s.data
    if t.length == 3 && t.all Char.isAlpha then (some ⟨t.map upperChar⟩, none)
    else (some ⟨t⟩, none)

/-- `normalise_pax` from `validators.py`. -/
def normalise_pax (n : Option Int) : Option Int × Option String :=
  match n with
  | none => (none, none)
  | some m =>
    if m ≤ 0 then (none, some "invalid-pax")
    else if m > 9 then (none, some "too-many-pax")
    else (some m, none)

/-! ### Ask-policy resolver — `src/orchestrator/ask_policy.py` -/

def TRAVEL_PRIORITY : List String :=
  ["depart_date", "destination", "origin", "return_date", "pax_adults", "cabin"]

def WEATHER_PRIORITY : List String :=
  ["location", "date"]

/-- `next_missing`: first slot of the priority order that is in the
candidate set. -/
def next_missing (slots : List String) (priority : List String) : Option String :=
  priority.find? (fun p => slots.contains p)

/-- `travel_question`: fixed question text per travel slot, with the
generic defensive default. -/
def travel_question (slot : String) : String :=
  if slot == "depart_date" then "What departure date works for you? (YYYY-MM-DD)"
  else if slot == "destination" then "Where are you flying to?"
  else if slot == "origin" then "Where are you flying from?"
  else if slot == "return_date" then
    "And the return date? (YYYY-MM-DD) If one-way, just say one-way."
  else if slot == "pax_adults" then "How many adults are travelling?"
  else if slot == "cabin" then
    "Which cabin do you prefer? Economy, Premium Economy, Business or First?"
  else "Could you clarify that detail, please?"

/-- `weather_question`: fixed question text per weather slot, with the
generic defensive default. -/
def weather_question (slot : String) : String :=
  if slot == "location" then "Which city should I check the weather for?"
  else if slot == "date" then "For which date should I check the forecast? (YYYY-MM-DD)"
  else "Could you clarify that detail, please?"

/-! ### Heuristic slot extractor — `src/orchestrator/extractor.py` -/

/-- Characters allowed after the leading letter of the location capture
group `[A-Za-z][A-Za-z .'\-]{1,40}`. -/
def isLocChar (c : Char) : Bool :=
  c.isAlpha || c == ' ' || c == '.' || c == apostrophe || c == '-'

/-- Greedy capture of up to `n` further location characters (the
`{1,40}` repetition of the location group). -/
def takeLocChars : Nat → List Char → List Char
  | 0, _ => []
  | _, [] => []
  | n + 1, c :: cs => if isLocChar c then c :: takeLocChars n cs else []

/-- The capture group `[A-Za-z][A-Za-z .'\-]{1,40}` at the head of `cs`:
a letter followed by one to forty further location characters
(greedy, nothing follows the group in the pattern). -/
def locGroupAt (cs : List Char) : Option (List Char) :=
  match cs with
  | [] => none
  | c :: rest =>
    if c.isAlpha then
      match takeLocChars 40 rest with
      | [] => none
      | tail => some (c :: tail)
    else none

/-- One preposition alternative of `\b(?:in|for|at)\s+(...)` tried at the
head of `t`: match the preposition case-insensitively, require at least
one whitespace character, then the location capture group. -/
def tryPrep (t : List Char) (prep : List Char) : Option (List Char) :=
  match matchCI prep t with
  | none => none
  | some r =>
    if (r.takeWhile Char.isWhitespace).isEmpty then none
    else locGroupAt (r.dropWhile Char.isWhitespace)

/-- The three alternatives `in | for | at`, tried in the pattern order. -/
def tryPrepAt (t : List Char) : Option (List Char) :=
  match tryPrep t ['i', 'n'] with
  | some g => some g
  | none =>
    match tryPrep t ['f', 'o', 'r'] with
    | some g => some g
    | none => tryPrep t ['a', 't']

/-- Left-to-right scan of `_LOC_AFTER_PREP_RE`; the flag records whether
the previous character was a word character, so the leading `\b` holds
exactly when it is false (the prepositions start with word characters). -/
def findLocMatch : Bool → List Char → Option (List Char)
  | _, [] => none
  | prevW, c :: cs =>
    match if prevW then none else tryPrepAt (c :: cs) with
    | some g => some g
    | none => findLocMatch (isWordChar c) cs

/-- Punctuation alternatives `[,;.!?\n]` of `_STOPWORDS_OR_PUNCT_RE`. -/
def isPunctStop (c : Char) : Bool :=
  c == ',' || c == ';' || c == '.' || c == '!' || c == '?' || c == '\n'

/-- Stopword alternatives `\b(today|tomorrow|next|this|coming|on|at|for)\b`
(case-insensitive), as lower-case char lists. -/
def stopWords : List (List Char) :=
  [['t', 'o', 'd', 'a', 'y'], ['t', 'o', 'm', 'o', 'r', 'r', 'o', 'w'],
   ['n', 'e', 'x', 't'], ['t', 'h', 'i', 's'], ['c', 'o', 'm', 'i', 'n', 'g'],
   ['o', 'n'], ['a', 't'], ['f', 'o', 'r']]

/-- `_STOPWORDS_OR_PUNCT_RE.split(raw, maxsplit=1)[0]`: the characters
before the first stopword/punctuation match.  The flag records whether
the previous character was a word character (word boundary tracking for
the `\b`-wrapped stopword alternatives). -/
def truncAtStop : Bool → List Char → List Char
  | _, [] => []
  | prevW, c :: cs =>
    if isPunctStop c then []
    else if !prevW && stopWords.any (fun w => wordAt (c :: cs) w) then []
    else c :: truncAtStop (isWordChar c) cs

/-- The strip set `" ,.!?\"'"` used on the truncated location. -/
def isLocStrip (c : Char) : Bool :=
  c == ' ' || c == ',' || c == '.' || c == '!' || c == '?' || c == '"' || c == apostrophe

/-- `_extract_location`: capture the span after `in`/`for`/`at`, strip
whitespace, truncate at stopwords or punctuation, strip surrounding
punctuation, and return `None` when empty or unmatched. -/
def extractLocation (text : String) : Option String :=
  match findLocMatch false text.data with
  | none => none
  | some g =>
    let raw := stripChars Char.isWhitespace g
    let cleaned := stripChars isLocStrip (truncAtStop false raw)
    if cleaned.isEmpty then none else some ⟨cleaned⟩

/-- The ISO date pattern `\b\d{4}-\d{2}-\d{2}\b` at the head of `cs`:
the ten matched characters, requiring the trailing word boundary. -/
def isoAt (cs : List Char) : Option (List Char) :=
  match cs with
  | y1 :: y2 :: y3 :: y4 :: h1 :: m1 :: m2 :: h2 :: d1 :: d2 :: rest =>
    if y1.isDigit && y2.isDigit && y3.isDigit && y4.isDigit && h1 == '-' &&
       m1.isDigit && m2.isDigit && h2 == '-' && d1.isDigit && d2.isDigit &&
       (match rest with | [] => true | r :: _ => !isWordChar r) then
      some [y1, y2, y3, y4, h1, m1, m2, h2, d1, d2]
    else none
  | _ => none

/-- Left-to-right scan of `_DATE_ISO_RE` with word-boundary tracking. -/
def findISO : Bool → List Char → Option (List Char)
  | _, [] => none
  | prevW, c :: cs =>
    match if prevW then none else isoAt (c :: cs) with
    | some g => some g
    | none => findISO (isWordChar c) cs

/-- `_extract_date`: an ISO `YYYY-MM-DD` literal if present, else the
keywords "tomorrow" / "today" as raw tokens, else `None`. -/
def extractDate (text : String) : Option String :=
  match findISO false text.data with
  | some g => some ⟨g⟩
  | none =>
    if strContains text "tomorrow" then some "tomorrow"
    else if strContains text "today" then some "today"
    else none

/-- Field names of the pydantic `WeatherSlots` model (`schemas/weather.py`). -/
def weatherFields : List String :=
  ["location", "date", "missing", "ambiguities"]

/-- Field names of the pydantic `TravelSlots` model (`schemas/travel.py`). -/
def travelFields : List String :=
  ["origin", "destination", "depart_date", "return_date", "pax_adults",
   "pax_children", "cabin", "missing", "ambiguities"]

/-- The validated `WeatherSlots` fields relevant to the graph. -/
structure WeatherSlotsM where
  location : Option String := none
  date : Option String := none
deriving Repr, DecidableEq

/-- The validated `TravelSlots` fields relevant to the graph. -/
structure TravelSlotsM where
  origin : Option String := none
  destination : Option String := none
  depart_date : Option String := none
  return_date : Option String := none
  pax_adults : Option Int := none
  pax_children : Option Int := none
  cabin : Option String := none
deriving Repr, DecidableEq

/-- `extract_structured` instantiated at the `WeatherSlots` schema: the
heuristics fire exactly when the schema has both a `location` and a
`date` field. -/
def extract_structured_weather (context : String) : WeatherSlotsM :=
  if weatherFields.contains "location" && weatherFields.contains "date" then
    { location := extractLocation (stripWS context),
      date := extractDate (stripWS context) }
  else {}

/-- `extract_structured` instantiated at the `TravelSlots` schema.
`TravelSlots` has no `location`/`date` field, so the schema-field test
fails and `model_validate({})` leaves every field at its `None` default
(and even in the other branch, pydantic would ignore the two extra keys,
so every `TravelSlots` field would still be a default). -/
def extract_structured_travel (context : String) : TravelSlotsM :=
  let _ := context
  if travelFields.contains "location" && travelFields.contains "date" then {}
  else {}

/-! ### Turn state machine — `src/orchestrator/nodes.py`, `graph.py` -/

/-- The slot mapping carried in `ConversationState["slots"]` (a Python
dict; the graph only ever reads/writes these keys). -/
structure Slots where
  location : Option String := none
  date : Option String := none
  origin : Option String := none
  destination : Option String := none
  depart_date : Option String := none
  return_date : Option String := none
  pax_adults : Option Int := none
  cabin : Option String := none
deriving Repr, DecidableEq

/-- Python truthiness of an optional string (`if not loc`): falsy when
absent or empty. -/
def truthyS (o : Option String) : Bool :=
  match o with
  | none => false
  | some s => !(s == "")

/-- Fallback keyword routing `_keyword_route` (also `router.py`):
substring keyword matching on the lower-cased message, travel keywords
first, then weather, then smalltalk, default OTHER.  The Python keyword
sets are iterated only through `any`, so order within a set is
irrelevant. -/
def keyword_route (text : String) : String :=
  if ["flight", "flights", "fly", "fare", "airport", "book", "airline"].any
      (fun k => strContains text k) then "TRAVEL"
  else if ["weather", "rain", "temperature", "forecast", "sunny", "snow"].any
      (fun k => strContains text k) then "WEATHER"
  else if ["hi", "hello", "hey", "thanks"].any (fun k => strContains text k) then
    "SMALLTALK"
  else "OTHER"

/-- `extract_slots_node`: heuristic extraction into the slots dict,
keyed by intent (the dict keys copied are exactly those of the source). -/
def extract_slots_node (intent : String) (last_message : String) : Slots :=
  if intent == "WEATHER" then
    let s := extract_structured_weather last_message
    { location := s.location, date := s.date }
  else if intent == "TRAVEL" then
    let s := extract_structured_travel last_message
    { origin := s.origin, destination := s.destination,
      depart_date := s.depart_date, return_date := s.return_date,
      pax_adults := s.pax_adults, cabin := s.cabin }
  else {}

/-- The `missing` list computed by the WEATHER branch of
`validate_slots_node` (appends in source order). -/
def weather_missing (slots : Slots) : List String :=
  if truthyS slots.location then [] else ["location"]

/-- The `ambiguities` list computed by the WEATHER branch of
`validate_slots_node`. -/
def weather_ambiguities (slots : Slots) (today : PyDate) : List String :=
  if (normalise_date slots.date today).2 == some "ambiguous-relative" then ["date"]
  else []

/-- The `missing` list computed by the TRAVEL branch of
`validate_slots_node` (appends in source order: origin, destination,
depart_date, pax_adults).  Origin/destination use Python truthiness
(`if not origin`), the date and pax use `is None`. -/
def travel_missing (slots : Slots) (today : PyDate) : List String :=
  (if truthyS (normalise_iata_or_city slots.origin).1 then [] else ["origin"]) ++
  (if truthyS (normalise_iata_or_city slots.destination).1 then [] else ["destination"]) ++
  (if (normalise_date slots.depart_date today).1 == none then ["depart_date"] else []) ++
  (if (normalise_pax slots.pax_adults).1 == none then ["pax_adults"] else [])

/-- The `ambiguities` list computed by the TRAVEL branch of
`validate_slots_node`. -/
def travel_ambiguities (slots : Slots) (today : PyDate) : List String :=
  if (normalise_date slots.depart_date today).2 == some "ambiguous-relative" then
    ["depart_date"]
  else []

/-- Result dict of `validate_slots_node`. -/
structure ValidateResult where
  slots : Slots
  missing_slots : List String
  next_action : String
deriving Repr, DecidableEq

/-- Python `missing or ambiguities`: the first list when non-empty, else
the second. -/
def listOr (missing ambiguities : List String) : List String :=
  if missing.isEmpty then ambiguities else missing

/-- `validate_slots_node`: normalise the extracted slots, compute the
missing and ambiguous sets separately, and choose the next action.
In the source, the TRAVEL branch unconditionally calls `normalise_date`
with the ambient current date (`today` defaulting to `date.today()`) and
the WEATHER branch passes `today=date.today()` explicitly; both are the
explicit `today` argument here. -/
def validate_slots_node (intent : String) (slots : Slots) (today : PyDate) :
    ValidateResult :=
  if intent == "WEATHER" then
    let missing := weather_missing slots
    let ambiguities := weather_ambiguities slots today
    let d := (normalise_date slots.date today).1
    let slots2 := { slots with date := d }
    let ask_slot := next_missing (listOr missing ambiguities) WEATHER_PRIORITY
    { slots := slots2, missing_slots := listOr missing ambiguities,
      next_action := if ask_slot.isSome then "ask_question" else "call_tool" }
  else if intent == "TRAVEL" then
    let missing := travel_missing slots today
    let ambiguities := travel_ambiguities slots today
    let slots2 := { slots with
      origin := (normalise_iata_or_city slots.origin).1,
      destination := (normalise_iata_or_city slots.destination).1,
      depart_date := (normalise_date slots.depart_date today).1,
      pax_adults := (normalise_pax slots.pax_adults).1 }
    let ask_slot := next_missing (listOr missing ambiguities) TRAVEL_PRIORITY
    { slots := slots2, missing_slots := listOr missing ambiguities,
      next_action := if ask_slot.isSome then "ask_question" else "call_tool" }
  else
    { slots := slots, missing_slots := [], next_action := "respond" }

/-- `ask_question_node`: render a question for the head of
`missing_slots` (the source takes `missing_slots[0]` with the comment
that it is already prioritized by `validate_slots`). -/
def ask_question_node (intent : String) (missing_slots : List String) : String :=
  match missing_slots with
  | [] => "I need more information to help you."
  | ask_slot :: _ =>
    if intent == "WEATHER" then weather_question ask_slot
    else if intent == "TRAVEL" then travel_question ask_slot
    else "Could you clarify that detail, please?"

/-- Outcome of the awaited `call_tool("weather.get", ...)` expression
inside `call_tool_node`: either the validated `WeatherReport` (with the
`:.0f`-rendered temperature as a string) or a raised exception rendered
by `str(e)` (PermissionError, RateLimitError, validation errors, ...). -/
inductive ToolOutcome where
  | report (location_label : String) (date : String) (summary : String)
      (temp_str : String)
  | failure (msg : String)
deriving Repr, DecidableEq

/-- The Python `f"{x}"` rendering of an optional string (`None` prints
as "None"). -/
def pyShowS (o : Option String) : String :=
  match o with
  | none => "None"
  | some s => s

/-- The Python `f"{x}"` rendering of an optional integer. -/
def pyShowI (o : Option Int) : String :=
  match o with
  | none => "None"
  | some n => toString n

/-- The apologetic prefix of the WEATHER tool-failure response. -/
def weatherFailText : String :=
  "Sorry, I couldn" ++ String.singleton apostrophe ++ "t fetch the weather: "

/-- `call_tool_node`: execute the tool for WEATHER (any raised exception
is caught and rendered apologetically), format the stub response for
TRAVEL, defensive default otherwise. -/
def call_tool_node (intent : String) (slots : Slots) (tool : ToolOutcome) :
    String :=
  if intent == "WEATHER" then
    match tool with
    | .report label d summary temp =>
      label ++ " on " ++ d ++ ": " ++ summary ++ ", " ++ temp ++ "°C."
    | .failure e => weatherFailText ++ e
  else if intent == "TRAVEL" then
    "Got it. " ++ pyShowS slots.origin ++ " → " ++ pyShowS slots.destination ++
      " on " ++ pyShowS slots.depart_date ++ " for " ++
      pyShowI slots.pax_adults ++ " adult(s)."
  else "I" ++ String.singleton apostrophe ++ "m not sure how to help with that."

/-- `generate_response_node`: direct responses for non-slot intents. -/
def generate_response_node (intent : String) : String :=
  if intent == "SMALLTALK" then
    "Hello! How can I help you today? I can assist with travel or weather."
  else if intent == "OTHER" then
    "Would you like help with travel or weather?"
  else "I" ++ String.singleton apostrophe ++ "m here to help! What would you like to know?"

/-- `should_extract_slots`: conditional edge out of `route_intent`. -/
def should_extract_slots (intent : String) : String :=
  if intent == "WEATHER" || intent == "TRAVEL" then "extract_slots"
  else "generate_response"

/-- `route_after_validation`: conditional edge out of `validate_slots`,
defaulting to the direct response when `next_action` is unset. -/
def route_after_validation (next_action : Option String) : String :=
  let n := next_action.getD "respond"
  if n == "ask_question" then "ask_question"
  else if n == "call_tool" then "call_tool"
  else "generate_response"

/-- The nodes of the compiled `StateGraph` (`build_graph`). -/
inductive GNode where
  | setup_session
  | route_intent
  | extract_slots
  | validate_slots
  | ask_question
  | call_tool
  | generate_response
deriving Repr, DecidableEq

/-- Result of one turn of the compiled graph: the sequence of nodes
executed between START and END, the final response, and — when the
WEATHER branch invoked the tool gateway — the payload dict
`{"location": ..., "date": ...}` passed to `call_tool`. -/
structure TurnResult where
  trace : List GNode
  final_response : String
  tool_payload : Option (Option String × Option String) := none
deriving Repr, DecidableEq

/-- Execution of the compiled graph after `route_intent` has produced
`intent` (the classifier is LLM-backed with a keyword fallback, so the
intent is a parameter here): the edge structure of `build_graph`.
`setup_session` and `route_intent` always run; the conditional edge
`should_extract_slots` either skips to `generate_response` or runs
`extract_slots` then `validate_slots`, whose `route_after_validation`
edge picks exactly one terminal node; every terminal node is wired
straight to END. -/
def runTurnFrom (intent : String) (last_message : String) (today : PyDate)
    (tool : ToolOutcome) : TurnResult :=
  let pre : List GNode := [.setup_session, .route_intent]
  if should_extract_slots intent == "extract_slots" then
    let slots := extract_slots_node intent last_message
    let v := validate_slots_node intent slots today
    let r := route_after_validation (some v.next_action)
    if r == "ask_question" then
      { trace := pre ++ [.extract_slots, .validate_slots, .ask_question],
        final_response := ask_question_node intent v.missing_slots }
    else if r == "call_tool" then
      { trace := pre ++ [.extract_slots, .validate_slots, .call_tool],
        final_response := call_tool_node intent v.slots tool,
        tool_payload :=
          if intent == "WEATHER" then some (v.slots.location, v.slots.date)
          else none }
    else
      { trace := pre ++ [.extract_slots, .validate_slots, .generate_response],
        final_response := generate_response_node intent }
  else
    { trace := pre ++ [.generate_response],
      final_response := generate_response_node intent }

/-- One full turn with the baseline keyword classifier (the
configuration with no LLM key, as exercised by the repository's own
tests). -/
def runTurn (last_message : String) (today : PyDate) (tool : ToolOutcome) :
    TurnResult :=
  runTurnFrom (keyword_route last_message) last_message today tool

/-! ### Fixed-window rate limiter — `src/safety/rate_limit.py`

The external Redis counter for a single rate-limit key is modelled as an
atomic counter: `none` when the key is absent (fresh or expired),
`some (count, t)` when it holds `count` with `t` seconds left to live.
`INCR` on an absent key creates it with value 1 and no expiry, so the
pipelined `TTL` read returns -1 and the code applies
`EXPIRE window_seconds`. -/

/-- State of the counter for one rate-limit key. -/
abbrev RLStore := Option (Nat × Nat)

/-- `RateLimitOutcome` from `rate_limit.py` (`remaining` is
`max(0, limit - count)`, truncated subtraction here). -/
structure RateLimitOutcome where
  allowed : Bool
  remaining : Nat
  limit : Nat
  reset_seconds : Nat
deriving Repr, DecidableEq

/-- `fixed_window_allow`: non-positive limits always allow; otherwise
atomically increment, lazily arm the window expiry on the first
increment, and allow exactly while the post-increment count is within
the limit.  A denial reports the key's remaining time to live as
`reset_seconds`. -/
def fixed_window_allow (store : RLStore) (limit window_seconds : Nat) :
    RateLimitOutcome × RLStore :=
  if limit == 0 then
    ({ allowed := true, remaining := limit, limit := limit,
       reset_seconds := window_seconds }, store)
  else
    match store with
    | none =>
      ({ allowed := decide (1 ≤ limit), remaining := limit - 1, limit := limit,
         reset_seconds := window_seconds }, some (1, window_seconds))
    | some (c, t) =>
      ({ allowed := decide (c + 1 ≤ limit), remaining := limit - (c + 1),
         limit := limit, reset_seconds := t }, some (c + 1, t))

/-- Passage of `d` seconds on the counter store: a key expires when its
time to live is used up. -/
def rlTick (store : RLStore) (d : Nat) : RLStore :=
  match store with
  | none => none
  | some (c, t) => if d < t then some (c, t - d) else none

/-- Run a schedule of limiter calls against one key: each schedule entry
is the number of seconds elapsing before that call. -/
def runRL (limit window : Nat) : RLStore → List Nat → List RateLimitOutcome
  | _, [] => []
  | store, d :: ds =>
    let s1 := rlTick store d
    let (o, s2) := fixed_window_allow s1 limit window
    o :: runRL limit window s2 ds

/-! ### Tool-invocation gateway — `src/tools/toolkit.py`

`call_tool` raises `PermissionError` for a name outside the configured
allow-list, pydantic validation errors for a payload rejected by the
tool's input model, and `RateLimitError` on quota exhaustion; these are
the typed error outcomes below.  The registered tool is the `ToolSpec`
argument, the payload type is abstract, and the rate-limit counter for
the key `rl:tool:{name}:{principal}` is the `RLStore` argument. -/

/-- Typed failure outcomes of the gateway. -/
inductive GatewayError where
  | notPermitted (name : String)
  | invalidInput (name : String)
  | rateLimited (reset_seconds : Nat)
deriving Repr, DecidableEq

/-- A registered tool: its declared input validation (the pydantic
`input_model(**payload)` call) and its execution. -/
structure ToolSpec (α β : Type) where
  input_ok : α → Bool
  run : α → β

/-- `call_tool`: allow-list check, then input validation, then the
fixed-window rate-limit increment, then execution.  Returns the result
or typed error together with the counter store after the call. -/
def call_tool {α β : Type} (allowlist : List String) (tool : ToolSpec α β)
    (name : String) (payload : α) (limit window : Nat) (store : RLStore) :
    Except GatewayError β × RLStore :=
  if !(allowlist.contains name) then
    (.error (.notPermitted name), store)
  else if !(tool.input_ok payload) then
    (.error (.invalidInput name), store)
  else
    let (outcome, store2) := fixed_window_allow store limit window
    if !outcome.allowed then
      (.error (.rateLimited outcome.reset_seconds), store2)
    else
      (.ok (tool.run payload), store2)

/-! ### Helper lemmas -/

theorem str_append_ne_left (a b : String) (h : a ≠ "") : a ++ b ≠ "" := by
  intro hc
  apply h
  have hd : (a ++ b).data = [] := by rw [hc]
  rw [String.data_append] at hd
  rcases List.append_eq_nil.mp hd with ⟨h1, _⟩
  cases a
  exact congrArg String.mk h1

theorem str_append_ne_right (a b : String) (h : b ≠ "") : a ++ b ≠ "" := by
  intro hc
  apply h
  have hd : (a ++ b).data = [] := by rw [hc]
  rw [String.data_append] at hd
  rcases List.append_eq_nil.mp hd with ⟨_, h2⟩
  cases b
  exact congrArg String.mk h2

theorem travel_question_ne_empty (slot : String) : travel_question slot ≠ "" := by
  unfold travel_question
  split_ifs <;> decide

theorem weather_question_ne_empty (slot : String) : weather_question slot ≠ "" := by
  unfold weather_question
  split_ifs <;> decide

theorem ask_question_node_ne_empty (intent : String) (ms : List String) :
    ask_question_node intent ms ≠ "" := by
  cases ms with
  | nil =>
    show "I need more information to help you." ≠ ""
    decide
  | cons s rest =>
    simp only [ask_question_node]
    split_ifs
    · exact weather_question_ne_empty s
    · exact travel_question_ne_empty s
    · show "Could you clarify that detail, please?" ≠ ""
      decide

theorem call_tool_node_ne_empty (intent : String) (slots : Slots)
    (tool : ToolOutcome) : call_tool_node intent slots tool ≠ "" := by
  unfold call_tool_node
  split_ifs
  · match tool with
    | .report label d summary temp => exact str_append_ne_right _ _ (by decide)
    | .failure e => exact str_append_ne_left _ _ (by decide)
  · exact str_append_ne_right _ _ (by decide)
  · exact str_append_ne_right _ _ (by decide)

theorem generate_response_node_ne_empty (intent : String) :
    generate_response_node intent ≠ "" := by
  unfold generate_response_node
  split_ifs
  · decide
  · decide
  · exact str_append_ne_right _ _ (by decide)

theorem relativeHint_next_any (w : String) :
    relativeHintsSearch ("next " ++ w) = true := by
  cases w with
  | mk l => rfl

/-! ### Claims -/

/-- C6: the date normalizer maps a null input to `(null, null)`; any
input containing the word-bounded relative markers "next", "this" or
"coming" — in particular `"next <weekday>"` for every weekday name — to
`(null, "ambiguous-relative")`; any other input the date parser rejects
to `(null, "invalid-date")`; and any parseable input to its canonical
`YYYY-MM-DD` rendering with a null error code, the parse receiving the
caller-supplied `today` reference as its default. -/
theorem normalise_date_spec :
    (∀ today : PyDate, normalise_date none today = (none, none)) ∧
    (∀ (today : PyDate) (s : String), relativeHintsSearch s = true →
      normalise_date (some s) today = (none, some "ambiguous-relative")) ∧
    (∀ (today : PyDate) (w : String),
      normalise_date (some ("next " ++ w)) today = (none, some "ambiguous-relative")) ∧
    (∀ (today : PyDate) (s : String), relativeHintsSearch s = false →
      parse_dateutil s today = none →
      normalise_date (some s) today = (none, some "invalid-date")) ∧
    (∀ (today : PyDate) (s : String) (d : PyDate), relativeHintsSearch s = false →
      parse_dateutil s today = some d →
      normalise_date (some s) today = (some d.iso, none)) := by
  refine ⟨fun _ => rfl, ?_, ?_, ?_, ?_⟩
  · intro today s h
    simp [normalise_date, h]
  · intro today w
    simp [normalise_date, relativeHint_next_any]
  · intro today s h hp
    simp [normalise_date, h, hp]
  · intro today s d h hp
    simp [normalise_date, h, hp]

/-- Witness for C6 at concrete inputs: a null date, "next Friday" (and
another weekday), unparseable text, and an ISO literal. -/
theorem normalise_date_spec_witness :
    normalise_date none ⟨2025, 10, 12⟩ = (none, none) ∧
    normalise_date (some ("next " ++ "Friday")) ⟨2025, 10, 12⟩ =
      (none, some "ambiguous-relative") ∧
    normalise_date (some ("next " ++ "Monday")) ⟨2025, 10, 12⟩ =
      (none, some "ambiguous-relative") ∧
    normalise_date (some "gibberish") ⟨2025, 10, 12⟩ =
      (none, some "invalid-date") ∧
    normalise_date (some "2025-03-14") ⟨2025, 10, 12⟩ =
      (some (PyDate.iso ⟨2025, 3, 14⟩), none) ∧
    PyDate.iso ⟨2025, 3, 14⟩ = "2025-03-14" :=
  ⟨normalise_date_spec.1 ⟨2025, 10, 12⟩,
   normalise_date_spec.2.2.1 ⟨2025, 10, 12⟩ "Friday",
   normalise_date_spec.2.2.1 ⟨2025, 10, 12⟩ "Monday",
   normalise_date_spec.2.2.2.1 ⟨2025, 10, 12⟩ "gibberish" (by decide) (by decide),
   normalise_date_spec.2.2.2.2 ⟨2025, 10, 12⟩ "2025-03-14" ⟨2025, 3, 14⟩
     (by decide) (by decide),
   by decide⟩

/-- C7: the passenger-count normalizer maps null to `(null, null)`,
non-positive counts to `(null, "invalid-pax")`, counts above nine to
`(null, "too-many-pax")`, and passes every count in 1..9 through
unchanged with a null error code. -/
theorem normalise_pax_spec :
    normalise_pax none = (none, none) ∧
    (∀ n : Int, n ≤ 0 → normalise_pax (some n) = (none, some "invalid-pax")) ∧
    (∀ n : Int, n > 9 → normalise_pax (some n) = (none, some "too-many-pax")) ∧
    (∀ n : Int, 1 ≤ n → n ≤ 9 → normalise_pax (some n) = (some n, none)) := by
  refine ⟨rfl, ?_, ?_, ?_⟩
  · intro n h
    simp [normalise_pax, h]
  · intro n h
    have h1 : ¬ n ≤ 0 := by omega
    simp [normalise_pax, h1, h]
  · intro n h1 h9
    have hp : ¬ n ≤ 0 := by omega
    have hq : ¬ n > 9 := by omega
    simp [normalise_pax, hp, hq]

/-- Witness for C7 across the tested range, including the boundaries. -/
theorem normalise_pax_spec_witness :
    normalise_pax (some (-5)) = (none, some "invalid-pax") ∧
    normalise_pax (some 0) = (none, some "invalid-pax") ∧
    normalise_pax (some 10) = (none, some "too-many-pax") ∧
    normalise_pax (some 15) = (none, some "too-many-pax") ∧
    normalise_pax (some 1) = (some 1, none) ∧
    normalise_pax (some 9) = (some 9, none) :=
  ⟨normalise_pax_spec.2.1 (-5) (by decide),
   normalise_pax_spec.2.1 0 (by decide),
   normalise_pax_spec.2.2.1 10 (by decide),
   normalise_pax_spec.2.2.1 15 (by decide),
   normalise_pax_spec.2.2.2 1 (by decide) (by decide),
   normalise_pax_spec.2.2.2 9 (by decide) (by decide)⟩

/-- C2: the gateway runs allow-list check, then input validation, then
the rate-limit increment.  A name outside the allow-list yields
`notPermitted` with the counter store untouched; an allow-listed name
with an invalid payload yields `invalidInput`, again with no counter
operation; only when both checks pass does the store change, and then
exactly as the fixed-window increment dictates, a denial carrying its
reset time. -/
theorem call_tool_order_spec {α β : Type} (allowlist : List String)
    (tool : ToolSpec α β) (name : String) (payload : α) (limit window : Nat)
    (store : RLStore) :
    (allowlist.contains name = false →
      call_tool allowlist tool name payload limit window store =
        (.error (.notPermitted name), store)) ∧
    (allowlist.contains name = true → tool.input_ok payload = false →
      call_tool allowlist tool name payload limit window store =
        (.error (.invalidInput name), store)) ∧
    (allowlist.contains name = true → tool.input_ok payload = true →
      (call_tool allowlist tool name payload limit window store).2 =
        (fixed_window_allow store limit window).2 ∧
      ((fixed_window_allow store limit window).1.allowed = false →
        (call_tool allowlist tool name payload limit window store).1 =
          .error (.rateLimited
            (fixed_window_allow store limit window).1.reset_seconds)) ∧
      ((fixed_window_allow store limit window).1.allowed = true →
        (call_tool allowlist tool name payload limit window store).1 =
          .ok (tool.run payload))) := by
  refine ⟨?_, ?_, ?_⟩
  · intro h
    have hm : name ∉ allowlist := by simpa using h
    simp [call_tool, hm]
  · intro h1 h2
    have hm : name ∈ allowlist := by simpa using h1
    simp [call_tool, hm, h2]
  · intro h1 h2
    have hm : name ∈ allowlist := by simpa using h1
    cases hfw : fixed_window_allow store limit window with
    | mk outcome store2 =>
      by_cases ha : outcome.allowed
      · simp [call_tool, hm, h2, hfw, ha]
      · simp [call_tool, hm, h2, hfw, ha]

/-- Witness for C2: a two-tool allow-list, a non-listed name, an invalid
payload, and a passing call that increments a fresh counter. -/
theorem call_tool_order_spec_witness :
    (["weather.get"] : List String).contains "echo.tool" = false ∧
    call_tool ["weather.get"] ⟨fun s => !(s == ""), fun s => s⟩ "echo.tool"
        "x" 10 60 none = (.error (.notPermitted "echo.tool"), none) ∧
    call_tool ["weather.get"] ⟨fun s => !(s == ""), fun s => s⟩ "weather.get"
        "" 10 60 none = (.error (.invalidInput "weather.get"), none) ∧
    (call_tool ["weather.get"] ⟨fun s => !(s == ""), fun s => s⟩ "weather.get"
        "x" 10 60 none).2 = (fixed_window_allow none 10 60).2 :=
  ⟨by decide,
   (call_tool_order_spec ["weather.get"] ⟨fun s => !(s == ""), fun s => s⟩
     "echo.tool" "x" 10 60 none).1 (by decide),
   (call_tool_order_spec ["weather.get"] ⟨fun s => !(s == ""), fun s => s⟩
     "weather.get" "" 10 60 none).2.1 (by decide) (by decide),
   ((call_tool_order_spec ["weather.get"] ⟨fun s => !(s == ""), fun s => s⟩
     "weather.get" "x" 10 60 none).2.2 (by decide) (by decide)).1⟩

theorem runRL_length (L W : Nat) :
    ∀ (ds : List Nat) (store : RLStore), (runRL L W store ds).length = ds.length := by
  intro ds
  induction ds with
  | nil => intro store; rfl
  | cons d ds ih =>
    intro store
    simp only [runRL]
    cases fixed_window_allow (rlTick store d) L W with
    | mk o s2 => simpa using ih s2

theorem runRL_inv (L W : Nat) (hL : 0 < L) (rest : List Nat) :
    ∀ (c t : Nat), rest.sum < t → ∀ i, i < rest.length →
      (runRL L W (some (c, t)) rest)[i]? =
        some { allowed := decide (c + i + 1 ≤ L), remaining := L - (c + i + 1),
               limit := L, reset_seconds := t - (rest.take (i + 1)).sum } := by
  induction rest with
  | nil =>
    intro c t _ i hi
    exact absurd hi (by simp)
  | cons d ds ih =>
    intro c t hsum i hi
    have hd : d < t := by
      simp only [List.sum_cons] at hsum
      omega
    have hL0 : (L == 0) = false := by
      simp only [beq_eq_false_iff_ne, ne_eq]
      omega
    have hstep : runRL L W (some (c, t)) (d :: ds) =
        { allowed := decide (c + 1 ≤ L), remaining := L - (c + 1), limit := L,
          reset_seconds := t - d } :: runRL L W (some (c + 1, t - d)) ds := by
      simp [runRL, rlTick, hd, fixed_window_allow, hL0]
    rw [hstep]
    cases i with
    | zero =>
      simp [List.take_succ_cons, List.sum_cons]
    | succ j =>
      rw [List.getElem?_cons_succ]
      have hds : ds.sum < t - d := by
        simp only [List.sum_cons] at hsum
        omega
      have hj : j < ds.length := by
        simp only [List.length_cons] at hi
        omega
      have hrec := ih (c + 1) (t - d) hds j hj
      rw [hrec]
      have e1 : c + 1 + j + 1 = c + (j + 1) + 1 := by omega
      have e2 : t - d - (ds.take (j + 1)).sum = t - ((d :: ds).take (j + 1 + 1)).sum := by
        simp [List.take_succ_cons, List.sum_cons, Nat.sub_sub]
      rw [e1, e2]

/-- C3: for every positive limit `L` and a fresh rate-limit key, with
the counter store modelled as an atomic counter: as long as the window
has not elapsed (the delays after the first call sum to less than the
window), the `i`-th call (1-based) is allowed exactly when `i ≤ L` — so
the first `L` calls are allowed and the `(L+1)`-th and all later calls
are denied — and every outcome (in particular every denial) carries the
window's remaining reset time. -/
theorem fixed_window_exact_limit (L W d0 : Nat) (rest : List Nat)
    (hL : 0 < L) (hW : rest.sum < W) :
    (runRL L W none (d0 :: rest)).length = rest.length + 1 ∧
    (∀ i, i < rest.length + 1 →
      ((runRL L W none (d0 :: rest))[i]?).map RateLimitOutcome.allowed =
        some (decide (i + 1 ≤ L))) ∧
    (∀ i, i < rest.length + 1 →
      ((runRL L W none (d0 :: rest))[i]?).map RateLimitOutcome.reset_seconds =
        some (W - (rest.take i).sum)) := by
  have hL0 : (L == 0) = false := by
    simp only [beq_eq_false_iff_ne, ne_eq]
    omega
  have hstep : runRL L W none (d0 :: rest) =
      { allowed := decide (1 ≤ L), remaining := L - 1, limit := L,
        reset_seconds := W } :: runRL L W (some (1, W)) rest := by
    simp [runRL, rlTick, fixed_window_allow, hL0]
  refine ⟨by simpa using runRL_length L W (d0 :: rest) none, ?_, ?_⟩
  · intro i hi
    rw [hstep]
    cases i with
    | zero => simp
    | succ j =>
      rw [List.getElem?_cons_succ]
      have hj : j < rest.length := by omega
      rw [runRL_inv L W hL rest 1 W hW j hj]
      have e1 : 1 + j + 1 = j + 1 + 1 := by omega
      simp [e1]
  · intro i hi
    rw [hstep]
    cases i with
    | zero => simp
    | succ j =>
      rw [List.getElem?_cons_succ]
      have hj : j < rest.length := by omega
      rw [runRL_inv L W hL rest 1 W hW j hj]
      simp

/-- Witness for C3 at limit 2, window 60 and four calls separated by
10, 20 and 4 seconds: the third and fourth calls are denied, and the
third call reports 30 seconds left in the window. -/
theorem fixed_window_exact_limit_witness :
    0 < 2 ∧ ([10, 20, 4] : List Nat).sum < 60 ∧
    ((runRL 2 60 none (5 :: [10, 20, 4]))[1]?).map RateLimitOutcome.allowed =
      some (decide (1 + 1 ≤ 2)) ∧
    ((runRL 2 60 none (5 :: [10, 20, 4]))[2]?).map RateLimitOutcome.allowed =
      some (decide (2 + 1 ≤ 2)) ∧
    ((runRL 2 60 none (5 :: [10, 20, 4]))[2]?).map RateLimitOutcome.reset_seconds =
      some (60 - ([10, 20, 4].take 2).sum) ∧
    ((runRL 2 60 none (5 :: [10, 20, 4]))[3]?).map RateLimitOutcome.allowed =
      some (decide (3 + 1 ≤ 2)) :=
  ⟨by decide, by decide,
   (fixed_window_exact_limit 2 60 5 [10, 20, 4] (by decide) (by decide)).2.1 1
     (by decide),
   (fixed_window_exact_limit 2 60 5 [10, 20, 4] (by decide) (by decide)).2.1 2
     (by decide),
   (fixed_window_exact_limit 2 60 5 [10, 20, 4] (by decide) (by decide)).2.2 2
     (by decide),
   (fixed_window_exact_limit 2 60 5 [10, 20, 4] (by decide) (by decide)).2.1 3
     (by decide)⟩

theorem listOr_of_ne_nil (a b : List String) (h : a ≠ []) : listOr a b = a := by
  simp [listOr, h]

theorem listOr_of_nil (a b : List String) (h : a = []) : listOr a b = b := by
  simp [listOr, h]

theorem head?_mem (l : List String) (s : String) (h : l.head? = some s) :
    s ∈ l := by
  cases l with
  | nil => simp at h
  | cons a as =>
    simp only [List.head?_cons, Option.some_inj] at h
    subst h
    exact List.mem_cons_self a as

/-- C5: slot validation computes the missing set and the ambiguous set
separately; the candidate set resolved against the ask policy is the
missing set whenever it is non-empty and the ambiguous set only when
nothing is strictly missing, and when some required slot is absent the
slot asked about (the head of `missing_slots`, which `ask_question_node`
renders) is one of the absent slots — never a merely ambiguous one. -/
theorem missing_takes_priority_over_ambiguous (slots : Slots) (today : PyDate) :
    (validate_slots_node "WEATHER" slots today).missing_slots =
      listOr (weather_missing slots) (weather_ambiguities slots today) ∧
    (validate_slots_node "TRAVEL" slots today).missing_slots =
      listOr (travel_missing slots today) (travel_ambiguities slots today) ∧
    (weather_missing slots = [] →
      (validate_slots_node "WEATHER" slots today).missing_slots =
        weather_ambiguities slots today) ∧
    (travel_missing slots today = [] →
      (validate_slots_node "TRAVEL" slots today).missing_slots =
        travel_ambiguities slots today) ∧
    (weather_missing slots ≠ [] →
      (validate_slots_node "WEATHER" slots today).missing_slots =
        weather_missing slots) ∧
    (travel_missing slots today ≠ [] →
      (validate_slots_node "TRAVEL" slots today).missing_slots =
        travel_missing slots today) ∧
    (∀ s, weather_missing slots ≠ [] →
      (validate_slots_node "WEATHER" slots today).missing_slots.head? = some s →
      s ∈ weather_missing slots) ∧
    (∀ s, travel_missing slots today ≠ [] →
      (validate_slots_node "TRAVEL" slots today).missing_slots.head? = some s →
      s ∈ travel_missing slots today) := by
  have hw : (validate_slots_node "WEATHER" slots today).missing_slots =
      listOr (weather_missing slots) (weather_ambiguities slots today) := rfl
  have ht : (validate_slots_node "TRAVEL" slots today).missing_slots =
      listOr (travel_missing slots today) (travel_ambiguities slots today) := rfl
  refine ⟨hw, ht, ?_, ?_, ?_, ?_, ?_, ?_⟩
  · intro h
    rw [hw, listOr_of_nil _ _ h]
  · intro h
    rw [ht, listOr_of_nil _ _ h]
  · intro h
    rw [hw, listOr_of_ne_nil _ _ h]
  · intro h
    rw [ht, listOr_of_ne_nil _ _ h]
  · intro s h hh
    rw [hw, listOr_of_ne_nil _ _ h] at hh
    exact head?_mem _ _ hh
  · intro s h hh
    rw [ht, listOr_of_ne_nil _ _ h] at hh
    exact head?_mem _ _ hh

/-- Witness for C5: a weather turn whose location is absent and whose
date is merely ambiguous ("next Friday") asks about the absent slot. -/
theorem missing_takes_priority_over_ambiguous_witness :
    weather_missing { location := none, date := some "next Friday" } =
      ["location"] ∧
    weather_ambiguities { location := none, date := some "next Friday" }
      ⟨2025, 10, 12⟩ = ["date"] ∧
    (validate_slots_node "WEATHER"
      { location := none, date := some "next Friday" }
      ⟨2025, 10, 12⟩).missing_slots =
        weather_missing { location := none, date := some "next Friday" } ∧
    "location" ∈ weather_missing { location := none, date := some "next Friday" } :=
  ⟨by decide, by decide,
   (missing_takes_priority_over_ambiguous
     { location := none, date := some "next Friday" } ⟨2025, 10, 12⟩).2.2.2.2.1
     (by decide),
   (missing_takes_priority_over_ambiguous
     { location := none, date := some "next Friday" } ⟨2025, 10, 12⟩).2.2.2.2.2.2.1
     "location" (by decide) (by decide)⟩

/-- C8: a turn whose classified intent is neither WEATHER nor TRAVEL
never enters the slot-extraction state: the conditional edge out of
intent routing goes straight to the direct-response terminal. -/
theorem non_slot_intents_skip_extraction (intent msg : String) (today : PyDate)
    (tool : ToolOutcome) (hW : intent ≠ "WEATHER") (hT : intent ≠ "TRAVEL") :
    should_extract_slots intent = "generate_response" ∧
    (runTurnFrom intent msg today tool).trace =
      [GNode.setup_session, GNode.route_intent, GNode.generate_response] ∧
    GNode.extract_slots ∉ (runTurnFrom intent msg today tool).trace ∧
    (runTurnFrom intent msg today tool).final_response =
      generate_response_node intent := by
  have hbW : (intent == "WEATHER") = false := by simpa using hW
  have hbT : (intent == "TRAVEL") = false := by simpa using hT
  have hs : should_extract_slots intent = "generate_response" := by
    simp [should_extract_slots, hbW, hbT]
  have hr : runTurnFrom intent msg today tool =
      { trace := [GNode.setup_session, GNode.route_intent, GNode.generate_response],
        final_response := generate_response_node intent } := by
    simp [runTurnFrom, hs]
  rw [hr]
  refine ⟨hs, rfl, ?_, rfl⟩
  show GNode.extract_slots ∉
    [GNode.setup_session, GNode.route_intent, GNode.generate_response]
  decide

/-- Witness for C8 at the SMALLTALK intent of end-to-end scenario 4. -/
theorem non_slot_intents_skip_extraction_witness :
    ("SMALLTALK" : String) ≠ "WEATHER" ∧
    (runTurnFrom "SMALLTALK" "hello there" ⟨2025, 10, 12⟩
      (ToolOutcome.failure "na")).trace =
      [GNode.setup_session, GNode.route_intent, GNode.generate_response] ∧
    GNode.extract_slots ∉ (runTurnFrom "SMALLTALK" "hello there" ⟨2025, 10, 12⟩
      (ToolOutcome.failure "na")).trace :=
  ⟨by decide,
   (non_slot_intents_skip_extraction "SMALLTALK" "hello there" ⟨2025, 10, 12⟩
     (ToolOutcome.failure "na") (by decide) (by decide)).2.1,
   (non_slot_intents_skip_extraction "SMALLTALK" "hello there" ⟨2025, 10, 12⟩
     (ToolOutcome.failure "na") (by decide) (by decide)).2.2.1⟩

/-- C10: the heuristic extractor only fires for schemas containing both
a `location` and a `date` field, which `TravelSlots` lacks; so for every
message text, a TRAVEL turn extracts an all-`None` slots value, marks
origin, destination, depart_date and pax_adults all missing, and
terminates in the clarifying-question state — never in a tool call. -/
theorem travel_turn_always_asks (msg : String) (today : PyDate)
    (tool : ToolOutcome) :
    travelFields.contains "location" = false ∧
    extract_structured_travel msg = {} ∧
    extract_slots_node "TRAVEL" msg = ({} : Slots) ∧
    (validate_slots_node "TRAVEL" (extract_slots_node "TRAVEL" msg)
      today).missing_slots = ["origin", "destination", "depart_date", "pax_adults"] ∧
    (runTurnFrom "TRAVEL" msg today tool).trace =
      [GNode.setup_session, GNode.route_intent, GNode.extract_slots,
       GNode.validate_slots, GNode.ask_question] ∧
    GNode.call_tool ∉ (runTurnFrom "TRAVEL" msg today tool).trace ∧
    (runTurnFrom "TRAVEL" msg today tool).final_response =
      travel_question "origin" := by
  refine ⟨by decide, rfl, rfl, rfl, rfl, ?_, rfl⟩
  show GNode.call_tool ∉
    [GNode.setup_session, GNode.route_intent, GNode.extract_slots,
     GNode.validate_slots, GNode.ask_question]
  decide

/-- C1, evaluated at the failing input: for the TRAVEL turn
"Find flights from London to Toronto" the missing list is
["origin", "destination", "depart_date", "pax_adults"], whose first
element by the TRAVEL priority order is depart_date — but the turn asks
the origin question, because `ask_question_node` takes the head of the
missing list in its construction order, not the priority order. -/
theorem travel_scenario_asks_origin_not_depart_date :
    keyword_route "Find flights from London to Toronto" = "TRAVEL" ∧
    (validate_slots_node "TRAVEL"
      (extract_slots_node "TRAVEL" "Find flights from London to Toronto")
      ⟨2025, 10, 12⟩).missing_slots =
        ["origin", "destination", "depart_date", "pax_adults"] ∧
    next_missing ["origin", "destination", "depart_date", "pax_adults"]
      TRAVEL_PRIORITY = some "depart_date" ∧
    (runTurn "Find flights from London to Toronto" ⟨2025, 10, 12⟩
      (ToolOutcome.failure "unused")).final_response = travel_question "origin" ∧
    travel_question "origin" ≠ travel_question "depart_date" := by
  decide

/-- C4, evaluated at the failing input: "weather in Toronto tomorrow" is
classified WEATHER and the extractor finds location "Toronto" and the
raw date token "tomorrow", but the date normalizer rejects "tomorrow"
(`(None, "invalid-date")`), so the weather tool is invoked with
location "Toronto" and a null date — not a concrete date value. -/
theorem weather_tomorrow_calls_tool_with_null_date :
    keyword_route "weather in Toronto tomorrow" = "WEATHER" ∧
    extract_structured_weather "weather in Toronto tomorrow" =
      { location := some "Toronto", date := some "tomorrow" } ∧
    normalise_date (some "tomorrow") ⟨2025, 10, 12⟩ =
      (none, some "invalid-date") ∧
    (runTurn "weather in Toronto tomorrow" ⟨2025, 10, 12⟩
      (ToolOutcome.failure "unused")).trace =
      [GNode.setup_session, GNode.route_intent, GNode.extract_slots,
       GNode.validate_slots, GNode.call_tool] ∧
    (runTurn "weather in Toronto tomorrow" ⟨2025, 10, 12⟩
      (ToolOutcome.failure "unused")).tool_payload =
      some (some "Toronto", none) := by
  decide

/-- C9: every turn terminates in exactly one of the three terminal
actions (ask question, call tool, direct response) and produces a
non-empty final response; in particular, when the WEATHER tool
invocation raises (RateLimited, InvalidInput, ...), the turn still ends
with the apologetic text rather than propagating the error. -/
theorem turn_unique_terminal_nonempty (intent msg : String) (today : PyDate)
    (tool : ToolOutcome) :
    ((runTurnFrom intent msg today tool).trace.count GNode.ask_question +
     (runTurnFrom intent msg today tool).trace.count GNode.call_tool +
     (runTurnFrom intent msg today tool).trace.count GNode.generate_response
       = 1) ∧
    (runTurnFrom intent msg today tool).final_response ≠ "" ∧
    (∀ e, intent = "WEATHER" → tool = ToolOutcome.failure e →
      GNode.call_tool ∈ (runTurnFrom intent msg today tool).trace →
      (runTurnFrom intent msg today tool).final_response =
        weatherFailText ++ e) := by
  simp only [runTurnFrom]
  split
  · split
    · refine ⟨?_, ?_, ?_⟩
      · dsimp only
        decide
      · dsimp only
        exact ask_question_node_ne_empty _ _
      · dsimp only
        intro e hi ht hmem
        exact absurd hmem (by decide)
    · split
      · refine ⟨?_, ?_, ?_⟩
        · dsimp only
          decide
        · dsimp only
          exact call_tool_node_ne_empty _ _ _
        · dsimp only
          intro e hi ht hmem
          subst hi
          subst ht
          rfl
      · refine ⟨?_, ?_, ?_⟩
        · dsimp only
          decide
        · dsimp only
          exact generate_response_node_ne_empty _
        · dsimp only
          intro e hi ht hmem
          exact absurd hmem (by decide)
  · refine ⟨?_, ?_, ?_⟩
    · dsimp only
      decide
    · dsimp only
      exact generate_response_node_ne_empty _
    · dsimp only
      intro e hi ht hmem
      exact absurd hmem (by decide)

/-- Witness for C9: a WEATHER turn whose tool invocation fails still
yields the apologetic text, and an OTHER turn yields a non-empty
response. -/
theorem turn_unique_terminal_nonempty_witness :
    (runTurnFrom "WEATHER" "weather in Toronto tomorrow" ⟨2025, 10, 12⟩
      (ToolOutcome.failure "Rate limit exceeded for weather.get. Try again in 60s.")).final_response =
      weatherFailText ++ "Rate limit exceeded for weather.get. Try again in 60s." ∧
    (runTurnFrom "OTHER" "what" ⟨2025, 10, 12⟩
      (ToolOutcome.failure "na")).final_response ≠ "" :=
  ⟨(turn_unique_terminal_nonempty "WEATHER" "weather in Toronto tomorrow"
      ⟨2025, 10, 12⟩
      (ToolOutcome.failure "Rate limit exceeded for weather.get. Try again in 60s.")).2.2
      "Rate limit exceeded for weather.get. Try again in 60s." rfl rfl (by decide),
   (turn_unique_terminal_nonempty "OTHER" "what" ⟨2025, 10, 12⟩
      (ToolOutcome.failure "na")).2.1⟩
